import Mathlib

/-!
Verification of the gas-metering module (`store/types/gas.go`) of the
repository: bounded and unbounded gas meters, their consume/refund
arithmetic with explicit unsigned 64-bit overflow semantics, and the
static gas-cost configuration tables.

Modelling conventions:
* Go's `uint64` (the `Gas` type) is embedded as `Nat` together with the
  representation invariant `< 2^64`, carried as a hypothesis where it
  matters.  Wrapping operations are made explicit (`uint64Add`,
  `uint64Sub`); the guarded additions of the source go through
  `addUint64Overflow` exactly as in the code.
* A Go map `map[string]Gas` is embedded as a total function
  `String → Nat`: reading an absent key in Go yields the zero value, which
  the function model reproduces with default 0.
* A Go `panic(err)` is embedded by returning the updated state together
  with `some err`; a normal return yields `none`.  State mutations that the
  source performs before raising the fatal condition are visible in the
  returned state, mutations that would come after are not.
-/

namespace GasSpec

/-- `math.MaxUint64`, the largest unsigned 64-bit value. -/
def maxUint64 : Nat := 2 ^ 64 - 1

/-- The modulus of unsigned 64-bit arithmetic. -/
def uint64Mod : Nat := 2 ^ 64

/-- Wrapping unsigned 64-bit addition (Go `a + b` on `uint64`),
for arguments below `2 ^ 64`. -/
def uint64Add (a b : Nat) : Nat := (a + b) % uint64Mod

/-- Wrapping unsigned 64-bit subtraction (Go `a - b` on `uint64`),
for arguments below `2 ^ 64`. -/
def uint64Sub (a b : Nat) : Nat := (a + (uint64Mod - b)) % uint64Mod

/-- `addUint64Overflow` from the source: adds two `uint64` values and
reports whether the addition overflows; on overflow it returns `(0, true)`. -/
def addUint64Overflow (a b : Nat) : Nat × Bool :=
  if maxUint64 - a < b then (0, true) else (a + b, false)

/-- The three fatal conditions of the module, each carrying the descriptor
string of the operation that raised it: `ErrorNegativeGasConsumed`,
`ErrorOutOfGas`, `ErrorGasOverflow`. -/
inductive GasError where
  | ErrorNegativeGasConsumed (descriptor : String)
  | ErrorOutOfGas (descriptor : String)
  | ErrorGasOverflow (descriptor : String)
  deriving DecidableEq, Repr

/-- `basicGasMeter`: the bounded gas meter, with a limit, a cumulative
consumed counter, and an optional per-descriptor cost-breakdown report. -/
structure basicGasMeter where
  limit : Nat
  consumed : Nat
  costBreakdownEnabled : Bool
  report : String → Nat

/-- `NewGasMeter`: a fresh bounded meter with the given limit, zero
consumption and an empty report (both source branches produce this state;
reading a nil Go map also yields zero values). -/
def NewGasMeter (limit : Nat) (costBreakdownEnabled : Bool) : basicGasMeter :=
  { limit := limit
    consumed := 0
    costBreakdownEnabled := costBreakdownEnabled
    report := fun _ => 0 }

/-- `basicGasMeter.GasConsumed`: returns the cumulative consumed amount. -/
def basicGasMeter.GasConsumed (g : basicGasMeter) : Nat := g.consumed

/-- `basicGasMeter.Limit`: returns the configured limit. -/
def basicGasMeter.Limit (g : basicGasMeter) : Nat := g.limit

/-- `basicGasMeter.IsPastLimit`: `consumed > limit`. -/
def basicGasMeter.IsPastLimit (g : basicGasMeter) : Bool :=
  g.consumed > g.limit

/-- `basicGasMeter.IsOutOfGas`: `consumed >= limit`. -/
def basicGasMeter.IsOutOfGas (g : basicGasMeter) : Bool :=
  g.consumed ≥ g.limit

/-- `basicGasMeter.GasConsumedToLimit`: the consumed amount clamped to the
limit. -/
def basicGasMeter.GasConsumedToLimit (g : basicGasMeter) : Nat :=
  if g.IsPastLimit then g.limit else g.consumed

/-- `basicGasMeter.Report`: returns the cost-breakdown report. -/
def basicGasMeter.Report (g : basicGasMeter) : String → Nat := g.report

/-- `basicGasMeter.ConsumeGas`: first runs `addUint64Overflow` and stores
its result into `consumed`; on overflow clamps `consumed` to `maxUint64`
and raises `ErrorGasOverflow`; otherwise, if the new `consumed` exceeds the
limit, raises `ErrorOutOfGas`; otherwise, if breakdown tracking is enabled,
adds `amount` to `report[descriptor]`. -/
def basicGasMeter.ConsumeGas (g : basicGasMeter) (amount : Nat)
    (descriptor : String) : basicGasMeter × Option GasError :=
  let res := addUint64Overflow g.consumed amount
  let g1 : basicGasMeter := { g with consumed := res.1 }
  if res.2 then
    ({ g1 with consumed := maxUint64 },
      some (GasError.ErrorGasOverflow descriptor))
  else if g1.consumed > g1.limit then
    (g1, some (GasError.ErrorOutOfGas descriptor))
  else if g1.costBreakdownEnabled then
    ({ g1 with report := fun d =>
        if d = descriptor then uint64Add (g1.report d) amount
        else g1.report d }, none)
  else
    (g1, none)

/-- `basicGasMeter.RefundGas`: raises `ErrorNegativeGasConsumed` when
`consumed < amount`; otherwise subtracts `amount` from `consumed` and, if
breakdown tracking is enabled, subtracts `amount` from
`report[descriptor]` (unsigned, so it may wrap). -/
def basicGasMeter.RefundGas (g : basicGasMeter) (amount : Nat)
    (descriptor : String) : basicGasMeter × Option GasError :=
  if g.consumed < amount then
    (g, some (GasError.ErrorNegativeGasConsumed descriptor))
  else
    let g1 : basicGasMeter := { g with consumed := uint64Sub g.consumed amount }
    if g1.costBreakdownEnabled then
      ({ g1 with report := fun d =>
          if d = descriptor then uint64Sub (g1.report d) amount
          else g1.report d }, none)
    else
      (g1, none)

/-- `infiniteGasMeter`: the unbounded gas meter, tracking only cumulative
consumption. -/
structure infiniteGasMeter where
  consumed : Nat

/-- `NewInfiniteGasMeter`: a fresh unbounded meter with zero consumption. -/
def NewInfiniteGasMeter : infiniteGasMeter := { consumed := 0 }

/-- `infiniteGasMeter.GasConsumed`: returns the cumulative consumed amount. -/
def infiniteGasMeter.GasConsumed (g : infiniteGasMeter) : Nat := g.consumed

/-- `infiniteGasMeter.GasConsumedToLimit`: returns the consumed amount
unchanged. -/
def infiniteGasMeter.GasConsumedToLimit (g : infiniteGasMeter) : Nat :=
  g.consumed

/-- `infiniteGasMeter.Limit`: always 0. -/
def infiniteGasMeter.Limit (_ : infiniteGasMeter) : Nat := 0

/-- `infiniteGasMeter.IsPastLimit`: always false. -/
def infiniteGasMeter.IsPastLimit (_ : infiniteGasMeter) : Bool := false

/-- `infiniteGasMeter.IsOutOfGas`: always false. -/
def infiniteGasMeter.IsOutOfGas (_ : infiniteGasMeter) : Bool := false

/-- `infiniteGasMeter.ConsumeGas`: stores the result of
`addUint64Overflow` into `consumed` (which is 0 when the addition
overflows) and raises `ErrorGasOverflow` on overflow; it never checks a
limit. -/
def infiniteGasMeter.ConsumeGas (g : infiniteGasMeter) (amount : Nat)
    (descriptor : String) : infiniteGasMeter × Option GasError :=
  let res := addUint64Overflow g.consumed amount
  let g1 : infiniteGasMeter := { consumed := res.1 }
  if res.2 then
    (g1, some (GasError.ErrorGasOverflow descriptor))
  else
    (g1, none)

/-- `infiniteGasMeter.RefundGas`: raises `ErrorNegativeGasConsumed` when
`consumed < amount`, otherwise subtracts `amount` from `consumed`. -/
def infiniteGasMeter.RefundGas (g : infiniteGasMeter) (amount : Nat)
    (descriptor : String) : infiniteGasMeter × Option GasError :=
  if g.consumed < amount then
    (g, some (GasError.ErrorNegativeGasConsumed descriptor))
  else
    ({ consumed := uint64Sub g.consumed amount }, none)

/-- `GasConfig`: the per-operation gas cost table of a KVStore. -/
structure GasConfig where
  HasCost : Nat
  DeleteCost : Nat
  ReadCostFlat : Nat
  ReadCostPerByte : Nat
  WriteCostFlat : Nat
  WriteCostPerByte : Nat
  IterNextCostFlat : Nat
  deriving DecidableEq, Repr

/-- `KVGasConfig`: the default gas config for KVStores. -/
def KVGasConfig : GasConfig :=
  { HasCost := 1000
    DeleteCost := 1000
    ReadCostFlat := 1000
    ReadCostPerByte := 3
    WriteCostFlat := 2000
    WriteCostPerByte := 30
    IterNextCostFlat := 30 }

/-- `TransientGasConfig`: the default gas config for TransientStores. -/
def TransientGasConfig : GasConfig :=
  { HasCost := 100
    DeleteCost := 100
    ReadCostFlat := 100
    ReadCostPerByte := 0
    WriteCostFlat := 200
    WriteCostPerByte := 3
    IterNextCostFlat := 3 }

/-- A single call on a gas meter: a charge or a refund, each carrying an
amount and a descriptor. -/
inductive Op where
  | consume (amount : Nat) (descriptor : String)
  | refund (amount : Nat) (descriptor : String)

/-- Perform one call on a bounded meter. -/
def basicStep (g : basicGasMeter) : Op → basicGasMeter × Option GasError
  | Op.consume a d => g.ConsumeGas a d
  | Op.refund a d => g.RefundGas a d

/-- Run a sequence of calls on a bounded meter, stopping at the first
fatal condition. -/
def basicRun (g : basicGasMeter) : List Op → basicGasMeter × Option GasError
  | [] => (g, none)
  | op :: rest =>
    match basicStep g op with
    | (g1, some e) => (g1, some e)
    | (g1, none) => basicRun g1 rest

/-- Validity of a call sequence relative to a running consumed value `c`
and a limit `L`: no addition overflows the unsigned 64-bit domain, the
running sum of charges minus refunds never exceeds `L`, and every refund
is at most the consumed value at the time of the refund. -/
def validOps (c L : Nat) : List Op → Prop
  | [] => True
  | Op.consume a _ :: rest => c + a < 2 ^ 64 ∧ c + a ≤ L ∧ validOps (c + a) L rest
  | Op.refund a _ :: rest => a ≤ c ∧ validOps (c - a) L rest

/-- Total amount charged by a sequence of calls. -/
def sumCharges : List Op → Nat
  | [] => 0
  | Op.consume a _ :: rest => a + sumCharges rest
  | Op.refund _ _ :: rest => sumCharges rest

/-- Total amount refunded by a sequence of calls. -/
def sumRefunds : List Op → Nat
  | [] => 0
  | Op.consume _ _ :: rest => sumRefunds rest
  | Op.refund a _ :: rest => a + sumRefunds rest

theorem two_pow_64_eq : (2 : Nat) ^ 64 = 18446744073709551616 := by norm_num

theorem maxUint64_eq : maxUint64 = 18446744073709551615 := by
  norm_num [maxUint64]

theorem uint64Mod_eq : uint64Mod = 18446744073709551616 := by
  norm_num [uint64Mod]

theorem addUint64Overflow_eq_of_lt (a b : Nat) (h : a + b < 2 ^ 64) :
    addUint64Overflow a b = (a + b, false) := by
  rw [addUint64Overflow, if_neg]
  rw [maxUint64_eq]
  rw [two_pow_64_eq] at h
  omega

theorem addUint64Overflow_eq_of_ge (a b : Nat) (ha : a < 2 ^ 64)
    (h : 2 ^ 64 ≤ a + b) : addUint64Overflow a b = (0, true) := by
  rw [addUint64Overflow, if_pos]
  rw [maxUint64_eq]
  rw [two_pow_64_eq] at ha h
  omega

theorem uint64Sub_eq_sub (a b : Nat) (hb : b ≤ a) (ha : a < 2 ^ 64) :
    uint64Sub a b = a - b := by
  rw [uint64Sub, uint64Mod_eq]
  rw [two_pow_64_eq] at ha
  omega

/-- Successful charge on a bounded meter: when the addition does not
overflow and stays within the limit, `ConsumeGas` raises no condition,
adds `amount` to `consumed` and leaves `limit` unchanged. -/
theorem ConsumeGas_ok (g : basicGasMeter) (a : Nat) (d : String)
    (h1 : g.consumed + a < 2 ^ 64) (h2 : g.consumed + a ≤ g.limit) :
    ∃ g2 : basicGasMeter, g.ConsumeGas a d = (g2, none) ∧
      g2.consumed = g.consumed + a ∧ g2.limit = g.limit := by
  have hadd := addUint64Overflow_eq_of_lt g.consumed a h1
  have hlim : ¬ (g.consumed + a > g.limit) := by omega
  by_cases hcb : g.costBreakdownEnabled <;>
    simp [basicGasMeter.ConsumeGas, hadd, hlim, hcb]

/-- Successful refund on a bounded meter: when `amount ≤ consumed`,
`RefundGas` raises no condition, subtracts `amount` from `consumed` and
leaves `limit` unchanged. -/
theorem RefundGas_ok (g : basicGasMeter) (a : Nat) (d : String)
    (ha : a ≤ g.consumed) (hc : g.consumed < 2 ^ 64) :
    ∃ g2 : basicGasMeter, g.RefundGas a d = (g2, none) ∧
      g2.consumed = g.consumed - a ∧ g2.limit = g.limit := by
  have hlt : ¬ (g.consumed < a) := by omega
  have hsub := uint64Sub_eq_sub g.consumed a ha hc
  by_cases hcb : g.costBreakdownEnabled <;>
    simp [basicGasMeter.RefundGas, hlt, hsub, hcb]

/-- Running a valid call sequence raises no fatal condition, and the final
consumed value satisfies `consumed + refunds = start + charges` and stays
below `2 ^ 64`. -/
theorem basicRun_valid_aux (ops : List Op) : ∀ g : basicGasMeter,
    g.consumed < 2 ^ 64 → validOps g.consumed g.limit ops →
    (basicRun g ops).2 = none ∧
    (basicRun g ops).1.consumed + sumRefunds ops =
      g.consumed + sumCharges ops ∧
    (basicRun g ops).1.consumed < 2 ^ 64 := by
  induction ops with
  | nil =>
    intro g hc _
    simpa [basicRun, sumCharges, sumRefunds] using hc
  | cons op rest ih =>
    intro g hc hv
    cases op with
    | consume a d =>
      obtain ⟨h1, h2, h3⟩ := hv
      obtain ⟨g2, hstep, hcon, hlim⟩ := ConsumeGas_ok g a d h1 h2
      have hc2 : g2.consumed < 2 ^ 64 := by omega
      have hv2 : validOps g2.consumed g2.limit rest := by
        rw [hcon, hlim]; exact h3
      obtain ⟨e1, e2, e3⟩ := ih g2 hc2 hv2
      refine ⟨?_, ?_, ?_⟩ <;>
        simp [basicRun, basicStep, hstep, e1, e3, sumCharges, sumRefunds] <;>
        omega
    | refund a d =>
      obtain ⟨h1, h2⟩ := hv
      obtain ⟨g2, hstep, hcon, hlim⟩ := RefundGas_ok g a d h1 hc
      have hc2 : g2.consumed < 2 ^ 64 := by omega
      have hv2 : validOps g2.consumed g2.limit rest := by
        rw [hcon, hlim]; exact h2
      obtain ⟨e1, e2, e3⟩ := ih g2 hc2 hv2
      refine ⟨?_, ?_, ?_⟩ <;>
        simp [basicRun, basicStep, hstep, e1, e3, sumCharges, sumRefunds] <;>
        omega

/-- C1: for every bounded meter with limit `L` and every sequence of
`ConsumeGas` and `RefundGas` calls in which no addition overflows uint64,
the running sum of charges minus refunds never exceeds `L`, and every
refund amount is at most the consumed value at the time of the refund, no
fatal condition is raised and `GasConsumed()` equals exactly the sum of
all charged amounts minus the sum of all refunded amounts. -/
theorem C1_valid_sequence_exact_sum (L : Nat) (enabled : Bool)
    (ops : List Op) (h : validOps 0 L ops) :
    (basicRun (NewGasMeter L enabled) ops).2 = none ∧
    ((basicRun (NewGasMeter L enabled) ops).1.GasConsumed : Int) =
      (sumCharges ops : Int) - (sumRefunds ops : Int) := by
  have h0 : (NewGasMeter L enabled).consumed < 2 ^ 64 := by
    simp [NewGasMeter]
  have hv : validOps (NewGasMeter L enabled).consumed
      (NewGasMeter L enabled).limit ops := by
    simpa [NewGasMeter] using h
  obtain ⟨e1, e2, e3⟩ := basicRun_valid_aux ops _ h0 hv
  refine ⟨e1, ?_⟩
  have e4 : (basicRun (NewGasMeter L enabled) ops).1.consumed +
      sumRefunds ops = sumCharges ops := by
    simpa [NewGasMeter] using e2
  simp only [basicGasMeter.GasConsumed]
  omega

/-- Witness for C1: a concrete valid charge/refund sequence on a fresh
meter of limit 100 runs without a fatal condition and ends with
`GasConsumed()` equal to charges minus refunds. -/
theorem C1_valid_sequence_exact_sum_witness :
    (basicRun (NewGasMeter 100 true)
        [Op.consume 10 "a", Op.refund 3 "a", Op.consume 5 "b"]).2 = none ∧
    ((basicRun (NewGasMeter 100 true)
        [Op.consume 10 "a", Op.refund 3 "a", Op.consume 5 "b"]).1.GasConsumed :
        Int) =
      (sumCharges [Op.consume 10 "a", Op.refund 3 "a", Op.consume 5 "b"] :
          Int) -
        (sumRefunds [Op.consume 10 "a", Op.refund 3 "a", Op.consume 5 "b"] :
          Int) :=
  C1_valid_sequence_exact_sum 100 true
    [Op.consume 10 "a", Op.refund 3 "a", Op.consume 5 "b"]
    (by norm_num [validOps])

/-- C2: on a bounded meter, a charge whose sum does not overflow but
strictly exceeds the limit raises `ErrorOutOfGas` with the descriptor; the
charge is still applied, so `GasConsumed()` returns the over-limit total
while `GasConsumedToLimit()` returns exactly the limit. -/
theorem C2_out_of_gas_applies_charge (g : basicGasMeter) (a : Nat)
    (d : String) (h1 : g.consumed + a < 2 ^ 64)
    (h2 : g.limit < g.consumed + a) :
    (g.ConsumeGas a d).2 = some (GasError.ErrorOutOfGas d) ∧
    (g.ConsumeGas a d).1.GasConsumed = g.consumed + a ∧
    (g.ConsumeGas a d).1.GasConsumedToLimit = g.limit := by
  have hadd := addUint64Overflow_eq_of_lt g.consumed a h1
  simp [basicGasMeter.ConsumeGas, hadd, h2, basicGasMeter.GasConsumed,
    basicGasMeter.GasConsumedToLimit, basicGasMeter.IsPastLimit]

/-- Witness for C2: a meter with limit 10 and consumed 8 charged 5 raises
`ErrorOutOfGas`, shows consumed 13 and clamps `GasConsumedToLimit` to 10. -/
theorem C2_out_of_gas_applies_charge_witness :
    (basicGasMeter.ConsumeGas
        { limit := 10, consumed := 8, costBreakdownEnabled := false,
          report := fun _ => 0 } 5 "w").2 =
      some (GasError.ErrorOutOfGas "w") ∧
    (basicGasMeter.ConsumeGas
        { limit := 10, consumed := 8, costBreakdownEnabled := false,
          report := fun _ => 0 } 5 "w").1.GasConsumed = 8 + 5 ∧
    (basicGasMeter.ConsumeGas
        { limit := 10, consumed := 8, costBreakdownEnabled := false,
          report := fun _ => 0 } 5 "w").1.GasConsumedToLimit = 10 :=
  C2_out_of_gas_applies_charge
    { limit := 10, consumed := 8, costBreakdownEnabled := false,
      report := fun _ => 0 } 5 "w" (by norm_num) (by norm_num)

/-- C3: on a bounded meter, a charge whose sum overflows the unsigned
64-bit domain raises `ErrorGasOverflow` with the descriptor, and
`consumed` is set to the maximum uint64 value, so `GasConsumed()` returns
`2 ^ 64 - 1` and never wraps to a small number. -/
theorem C3_overflow_clamps_to_max (g : basicGasMeter) (a : Nat)
    (d : String) (hc : g.consumed < 2 ^ 64) (h : 2 ^ 64 ≤ g.consumed + a) :
    (g.ConsumeGas a d).2 = some (GasError.ErrorGasOverflow d) ∧
    (g.ConsumeGas a d).1.GasConsumed = 2 ^ 64 - 1 := by
  have hadd := addUint64Overflow_eq_of_ge g.consumed a hc h
  simp [basicGasMeter.ConsumeGas, hadd, basicGasMeter.GasConsumed,
    maxUint64]

/-- Witness for C3: a bounded meter with consumed `2 ^ 64 - 1` charged 5
raises `ErrorGasOverflow` and afterwards reports consumed `2 ^ 64 - 1`. -/
theorem C3_overflow_clamps_to_max_witness :
    (basicGasMeter.ConsumeGas
        { limit := 0, consumed := 2 ^ 64 - 1, costBreakdownEnabled := false,
          report := fun _ => 0 } 5 "v").2 =
      some (GasError.ErrorGasOverflow "v") ∧
    (basicGasMeter.ConsumeGas
        { limit := 0, consumed := 2 ^ 64 - 1, costBreakdownEnabled := false,
          report := fun _ => 0 } 5 "v").1.GasConsumed = 2 ^ 64 - 1 :=
  C3_overflow_clamps_to_max
    { limit := 0, consumed := 2 ^ 64 - 1, costBreakdownEnabled := false,
      report := fun _ => 0 } 5 "v" (by norm_num) (by norm_num)

/-- C4 counterexample: on the unbounded meter with consumed `2 ^ 64 - 1`,
charging 5 raises `ErrorGasOverflow`, but a subsequent `GasConsumed()`
returns 0, not the maximum representable 64-bit value: the source stores
the `(0, true)` result of `addUint64Overflow` into `consumed` and never
clamps it to `maxUint64`. -/
theorem C4_overflow_consumed_counterexample :
    (infiniteGasMeter.ConsumeGas { consumed := 2 ^ 64 - 1 } 5 "d").2 =
      some (GasError.ErrorGasOverflow "d") ∧
    (infiniteGasMeter.ConsumeGas
        { consumed := 2 ^ 64 - 1 } 5 "d").1.GasConsumed = 0 ∧
    (infiniteGasMeter.ConsumeGas
        { consumed := 2 ^ 64 - 1 } 5 "d").1.GasConsumed ≠ 2 ^ 64 - 1 := by
  have hadd : addUint64Overflow 18446744073709551615 5 = (0, true) :=
    addUint64Overflow_eq_of_ge _ _ (by norm_num) (by norm_num)
  simp [infiniteGasMeter.ConsumeGas, infiniteGasMeter.GasConsumed, hadd]

/-- C4 amended: for every unbounded meter, `ConsumeGas` raises
`ErrorGasOverflow` exactly when `consumed + amount` overflows uint64 and
never raises `ErrorOutOfGas` for any amount; after the overflow signal a
subsequent `GasConsumed()` returns 0 (the stored `addUint64Overflow`
result), not the maximum representable value. -/
theorem C4_infinite_overflow_only (g : infiniteGasMeter) (a : Nat)
    (d : String) (hc : g.consumed < 2 ^ 64) :
    ((g.ConsumeGas a d).2 = some (GasError.ErrorGasOverflow d) ↔
      2 ^ 64 ≤ g.consumed + a) ∧
    (∀ d2 : String, (g.ConsumeGas a d).2 ≠ some (GasError.ErrorOutOfGas d2)) ∧
    (2 ^ 64 ≤ g.consumed + a → (g.ConsumeGas a d).1.GasConsumed = 0) := by
  by_cases hov : 2 ^ 64 ≤ g.consumed + a
  · have hadd := addUint64Overflow_eq_of_ge g.consumed a hc hov
    rw [two_pow_64_eq] at hov
    simp [infiniteGasMeter.ConsumeGas, infiniteGasMeter.GasConsumed, hadd,
      hov]
  · have hadd := addUint64Overflow_eq_of_lt g.consumed a (by omega)
    rw [two_pow_64_eq] at hov
    simp only [infiniteGasMeter.ConsumeGas, hadd]
    refine ⟨?_, ?_, ?_⟩
    · simp [two_pow_64_eq]
      omega
    · simp
    · intro h
      rw [two_pow_64_eq] at h
      omega

/-- Witness for the amended C4: on an unbounded meter with consumed
`2 ^ 64 - 1`, charging 5 overflows, raises `ErrorGasOverflow`, raises no
`ErrorOutOfGas`, and leaves `GasConsumed()` at 0. -/
theorem C4_infinite_overflow_only_witness :
    ((infiniteGasMeter.ConsumeGas { consumed := 2 ^ 64 - 1 } 5 "x").2 =
        some (GasError.ErrorGasOverflow "x") ↔
      2 ^ 64 ≤ 2 ^ 64 - 1 + 5) ∧
    (∀ d2 : String,
      (infiniteGasMeter.ConsumeGas { consumed := 2 ^ 64 - 1 } 5 "x").2 ≠
        some (GasError.ErrorOutOfGas d2)) ∧
    (2 ^ 64 ≤ 2 ^ 64 - 1 + 5 →
      (infiniteGasMeter.ConsumeGas
          { consumed := 2 ^ 64 - 1 } 5 "x").1.GasConsumed = 0) :=
  C4_infinite_overflow_only { consumed := 2 ^ 64 - 1 } 5 "x" (by norm_num)

/-- C5: for every bounded meter state, `IsOutOfGas()` is true iff
`consumed ≥ limit` and `IsPastLimit()` is true iff `consumed > limit`; at
`consumed = limit` exactly, `IsOutOfGas()` is true and `IsPastLimit()` is
false. -/
theorem C5_out_of_gas_past_limit_iff (g : basicGasMeter) :
    (g.IsOutOfGas = true ↔ g.limit ≤ g.consumed) ∧
    (g.IsPastLimit = true ↔ g.limit < g.consumed) ∧
    (g.consumed = g.limit → g.IsOutOfGas = true ∧ g.IsPastLimit = false) := by
  constructor
  · simp [basicGasMeter.IsOutOfGas]
  constructor
  · simp [basicGasMeter.IsPastLimit]
  · intro h
    simp [basicGasMeter.IsOutOfGas, basicGasMeter.IsPastLimit, h]

/-- Witness for C5: a meter with `consumed = limit = 7` has
`IsOutOfGas() = true` and `IsPastLimit() = false`. -/
theorem C5_out_of_gas_past_limit_iff_witness :
    (basicGasMeter.IsOutOfGas
        { limit := 7, consumed := 7, costBreakdownEnabled := false,
          report := fun _ => 0 } = true ↔ 7 ≤ 7) ∧
    (basicGasMeter.IsPastLimit
        { limit := 7, consumed := 7, costBreakdownEnabled := false,
          report := fun _ => 0 } = true ↔ 7 < 7) ∧
    (7 = 7 →
      basicGasMeter.IsOutOfGas
          { limit := 7, consumed := 7, costBreakdownEnabled := false,
            report := fun _ => 0 } = true ∧
      basicGasMeter.IsPastLimit
          { limit := 7, consumed := 7, costBreakdownEnabled := false,
            report := fun _ => 0 } = false) :=
  C5_out_of_gas_past_limit_iff
    { limit := 7, consumed := 7, costBreakdownEnabled := false,
      report := fun _ => 0 }

/-- C6: with breakdown tracking enabled, a `ConsumeGas` call that raises a
fatal condition leaves the whole report unchanged even though `consumed`
is updated by that same call; `report[descriptor]` is incremented by
`amount` only when the charge passes both the overflow check and the limit
check. -/
theorem C6_report_skipped_on_fatal (g : basicGasMeter) (a : Nat)
    (d : String) (henabled : g.costBreakdownEnabled = true)
    (hc : g.consumed < 2 ^ 64) :
    ((g.ConsumeGas a d).2 ≠ none → (g.ConsumeGas a d).1.report = g.report) ∧
    ((g.ConsumeGas a d).2 = some (GasError.ErrorOutOfGas d) →
      (g.ConsumeGas a d).1.consumed = g.consumed + a) ∧
    ((g.ConsumeGas a d).2 = none →
      (g.ConsumeGas a d).1.report d = uint64Add (g.report d) a ∧
      ∀ d2, d2 ≠ d → (g.ConsumeGas a d).1.report d2 = g.report d2) := by
  by_cases hov : 2 ^ 64 ≤ g.consumed + a
  · have hadd := addUint64Overflow_eq_of_ge g.consumed a hc hov
    simp [basicGasMeter.ConsumeGas, hadd]
  · have hadd := addUint64Overflow_eq_of_lt g.consumed a (by omega)
    by_cases hlim : g.limit < g.consumed + a
    · simp [basicGasMeter.ConsumeGas, hadd, hlim]
    · have hnot : ¬ (g.consumed + a > g.limit) := by omega
      simp [basicGasMeter.ConsumeGas, hadd, hnot, henabled]
      intro d2 hd2
      simp [hd2]

/-- Witness for C6: a tracking meter with limit 5 charged 10 raises
`ErrorOutOfGas`, updates consumed to 10, and leaves the report unchanged. -/
theorem C6_report_skipped_on_fatal_witness :
    ((basicGasMeter.ConsumeGas
          { limit := 5, consumed := 0, costBreakdownEnabled := true,
            report := fun _ => 0 } 10 "r").2 ≠ none →
      (basicGasMeter.ConsumeGas
          { limit := 5, consumed := 0, costBreakdownEnabled := true,
            report := fun _ => 0 } 10 "r").1.report = fun _ => 0) ∧
    ((basicGasMeter.ConsumeGas
          { limit := 5, consumed := 0, costBreakdownEnabled := true,
            report := fun _ => 0 } 10 "r").2 =
        some (GasError.ErrorOutOfGas "r") →
      (basicGasMeter.ConsumeGas
          { limit := 5, consumed := 0, costBreakdownEnabled := true,
            report := fun _ => 0 } 10 "r").1.consumed = 0 + 10) ∧
    ((basicGasMeter.ConsumeGas
          { limit := 5, consumed := 0, costBreakdownEnabled := true,
            report := fun _ => 0 } 10 "r").2 = none →
      (basicGasMeter.ConsumeGas
          { limit := 5, consumed := 0, costBreakdownEnabled := true,
            report := fun _ => 0 } 10 "r").1.report "r" =
        uint64Add 0 10 ∧
      ∀ d2, d2 ≠ "r" →
        (basicGasMeter.ConsumeGas
            { limit := 5, consumed := 0, costBreakdownEnabled := true,
              report := fun _ => 0 } 10 "r").1.report d2 = 0) :=
  C6_report_skipped_on_fatal
    { limit := 5, consumed := 0, costBreakdownEnabled := true,
      report := fun _ => 0 } 10 "r" rfl (by norm_num)

/-- C7: for both meter variants, `RefundGas` raises
`ErrorNegativeGasConsumed` with the descriptor iff `amount > consumed`;
when `amount ≤ consumed` it decreases `consumed` by exactly `amount`, and
with breakdown tracking disabled the bounded meter has no other side
effect (the unbounded meter keeps no other state). -/
theorem C7_refund_contract (g : basicGasMeter) (gi : infiniteGasMeter)
    (a b : Nat) (d e : String) (hc : g.consumed < 2 ^ 64)
    (hci : gi.consumed < 2 ^ 64) :
    ((g.RefundGas a d).2 = some (GasError.ErrorNegativeGasConsumed d) ↔
      g.consumed < a) ∧
    (a ≤ g.consumed →
      (g.RefundGas a d).2 = none ∧
      (g.RefundGas a d).1.consumed = g.consumed - a ∧
      (g.costBreakdownEnabled = false →
        (g.RefundGas a d).1 = { g with consumed := g.consumed - a })) ∧
    ((gi.RefundGas b e).2 = some (GasError.ErrorNegativeGasConsumed e) ↔
      gi.consumed < b) ∧
    (b ≤ gi.consumed →
      (gi.RefundGas b e).2 = none ∧
      (gi.RefundGas b e).1 = { consumed := gi.consumed - b }) := by
  refine ⟨?_, ?_, ?_, ?_⟩
  · by_cases hlt : g.consumed < a
    · simp [basicGasMeter.RefundGas, hlt]
    · have hsub := uint64Sub_eq_sub g.consumed a (by omega) hc
      by_cases hcb : g.costBreakdownEnabled <;>
        simp [basicGasMeter.RefundGas, hlt, hsub, hcb]
  · intro ha
    have hlt : ¬ (g.consumed < a) := by omega
    have hsub := uint64Sub_eq_sub g.consumed a ha hc
    by_cases hcb : g.costBreakdownEnabled <;>
      simp [basicGasMeter.RefundGas, hlt, hsub, hcb]
  · by_cases hlt : gi.consumed < b
    · simp [infiniteGasMeter.RefundGas, hlt]
    · have hsub := uint64Sub_eq_sub gi.consumed b (by omega) hci
      simp [infiniteGasMeter.RefundGas, hlt, hsub]
  · intro hb
    have hlt : ¬ (gi.consumed < b) := by omega
    have hsub := uint64Sub_eq_sub gi.consumed b hb hci
    simp [infiniteGasMeter.RefundGas, hlt, hsub]

/-- Witness for C7: a bounded meter with consumed 5 refunded 3 succeeds
and drops to 2 with no other change; an unbounded meter with consumed 2
refunded 10 raises `ErrorNegativeGasConsumed`. -/
theorem C7_refund_contract_witness :
    ((basicGasMeter.RefundGas
          { limit := 100, consumed := 5, costBreakdownEnabled := false,
            report := fun _ => 0 } 3 "p").2 =
        some (GasError.ErrorNegativeGasConsumed "p") ↔ 5 < 3) ∧
    (3 ≤ 5 →
      (basicGasMeter.RefundGas
          { limit := 100, consumed := 5, costBreakdownEnabled := false,
            report := fun _ => 0 } 3 "p").2 = none ∧
      (basicGasMeter.RefundGas
          { limit := 100, consumed := 5, costBreakdownEnabled := false,
            report := fun _ => 0 } 3 "p").1.consumed = 5 - 3 ∧
      (false = false →
        (basicGasMeter.RefundGas
            { limit := 100, consumed := 5, costBreakdownEnabled := false,
              report := fun _ => 0 } 3 "p").1 =
          { limit := 100, consumed := 5 - 3, costBreakdownEnabled := false,
            report := fun _ => 0 })) ∧
    ((infiniteGasMeter.RefundGas { consumed := 2 } 10 "q").2 =
        some (GasError.ErrorNegativeGasConsumed "q") ↔ 2 < 10) ∧
    (10 ≤ 2 →
      (infiniteGasMeter.RefundGas { consumed := 2 } 10 "q").2 = none ∧
      (infiniteGasMeter.RefundGas { consumed := 2 } 10 "q").1 =
        { consumed := 2 - 10 }) :=
  C7_refund_contract
    { limit := 100, consumed := 5, costBreakdownEnabled := false,
      report := fun _ => 0 } { consumed := 2 } 3 10 "p" "q"
    (by norm_num) (by norm_num)

/-- C8: with breakdown tracking enabled, a successful refund whose amount
exceeds the current report entry for the descriptor wraps that unsigned
entry modulo `2 ^ 64` (to `report[d] + 2 ^ 64 - amount`, which is
`(report[d] - amount) mod 2 ^ 64` in the integers) instead of clamping,
saturating, or rejecting. -/
theorem C8_report_entry_wraps (g : basicGasMeter) (a : Nat) (d : String)
    (henabled : g.costBreakdownEnabled = true) (ha : a ≤ g.consumed)
    (hc : g.consumed < 2 ^ 64) (hamax : a < 2 ^ 64)
    (hlt : g.report d < a) :
    (g.RefundGas a d).2 = none ∧
    (g.RefundGas a d).1.report d = g.report d + (2 ^ 64 - a) ∧
    ((g.RefundGas a d).1.report d : Int) =
      ((g.report d : Int) - (a : Int)) % 2 ^ 64 := by
  have hltc : ¬ (g.consumed < a) := by omega
  have hval : uint64Sub (g.report d) a = g.report d + (2 ^ 64 - a) := by
    rw [uint64Sub, uint64Mod_eq, two_pow_64_eq]
    rw [two_pow_64_eq] at hamax
    omega
  have hint : (2 : Int) ^ 64 = 18446744073709551616 := by norm_num
  refine ⟨?_, ?_, ?_⟩
  · simp [basicGasMeter.RefundGas, hltc, henabled]
  · simp [basicGasMeter.RefundGas, hltc, henabled, hval]
  · simp [basicGasMeter.RefundGas, hltc, henabled, hval]
    rw [two_pow_64_eq] at hamax
    omega

/-- Witness for C8: a tracking meter with consumed 10 and report entry 3
under descriptor "a" refunded 5 succeeds and leaves the entry at
`3 + 2 ^ 64 - 5 = 2 ^ 64 - 2`, the two-complement wrap of `3 - 5`. -/
theorem C8_report_entry_wraps_witness :
    (basicGasMeter.RefundGas
        { limit := 100, consumed := 10, costBreakdownEnabled := true,
          report := fun _ => 3 } 5 "a").2 = none ∧
    (basicGasMeter.RefundGas
        { limit := 100, consumed := 10, costBreakdownEnabled := true,
          report := fun _ => 3 } 5 "a").1.report "a" = 3 + (2 ^ 64 - 5) ∧
    ((basicGasMeter.RefundGas
        { limit := 100, consumed := 10, costBreakdownEnabled := true,
          report := fun _ => 3 } 5 "a").1.report "a" : Int) =
      ((3 : Int) - (5 : Int)) % 2 ^ 64 :=
  C8_report_entry_wraps
    { limit := 100, consumed := 10, costBreakdownEnabled := true,
      report := fun _ => 3 } 5 "a" rfl (by norm_num) (by norm_num)
    (by norm_num) (by norm_num)

/-- C9: for both variants, a refund that raises
`ErrorNegativeGasConsumed` leaves the meter completely unchanged —
`consumed`, and for the bounded meter also the limit, the flag and every
report entry, retain their prior values. -/
theorem C9_failed_refund_atomic (g : basicGasMeter) (gi : infiniteGasMeter)
    (a b : Nat) (d e : String) (h : g.consumed < a)
    (h2 : gi.consumed < b) :
    g.RefundGas a d = (g, some (GasError.ErrorNegativeGasConsumed d)) ∧
    gi.RefundGas b e = (gi, some (GasError.ErrorNegativeGasConsumed e)) := by
  constructor
  · simp [basicGasMeter.RefundGas, h]
  · simp [infiniteGasMeter.RefundGas, h2]

/-- Witness for C9: refunding 9 from a bounded meter with consumed 4 and
refunding 1 from a fresh unbounded meter each raise
`ErrorNegativeGasConsumed` and return the meter unchanged. -/
theorem C9_failed_refund_atomic_witness :
    basicGasMeter.RefundGas
        { limit := 20, consumed := 4, costBreakdownEnabled := true,
          report := fun _ => 7 } 9 "s" =
      ({ limit := 20, consumed := 4, costBreakdownEnabled := true,
          report := fun _ => 7 },
        some (GasError.ErrorNegativeGasConsumed "s")) ∧
    infiniteGasMeter.RefundGas { consumed := 0 } 1 "t" =
      ({ consumed := 0 }, some (GasError.ErrorNegativeGasConsumed "t")) :=
  C9_failed_refund_atomic
    { limit := 20, consumed := 4, costBreakdownEnabled := true,
      report := fun _ => 7 } { consumed := 0 } 9 1 "s" "t"
    (by norm_num) (by norm_num)

/-- C10: `KVGasConfig` and `TransientGasConfig` are constants returning
exactly the literal tables `(1000, 1000, 1000, 3, 2000, 30, 30)` and
`(100, 100, 100, 0, 200, 3, 3)` respectively. -/
theorem C10_gas_config_literals :
    KVGasConfig.HasCost = 1000 ∧ KVGasConfig.DeleteCost = 1000 ∧
    KVGasConfig.ReadCostFlat = 1000 ∧ KVGasConfig.ReadCostPerByte = 3 ∧
    KVGasConfig.WriteCostFlat = 2000 ∧ KVGasConfig.WriteCostPerByte = 30 ∧
    KVGasConfig.IterNextCostFlat = 30 ∧
    TransientGasConfig.HasCost = 100 ∧
    TransientGasConfig.DeleteCost = 100 ∧
    TransientGasConfig.ReadCostFlat = 100 ∧
    TransientGasConfig.ReadCostPerByte = 0 ∧
    TransientGasConfig.WriteCostFlat = 200 ∧
    TransientGasConfig.WriteCostPerByte = 3 ∧
    TransientGasConfig.IterNextCostFlat = 3 :=
  ⟨rfl, rfl, rfl, rfl, rfl, rfl, rfl, rfl, rfl, rfl, rfl, rfl, rfl, rfl⟩

end GasSpec
